import Mathlib

/-!
Verification development for the XFS online-repair staging and atomic
range-exchange engine: a shallow embedding, in Lean 4, of the C sources
under fs/xfs (xfs_xchgrange.c, xfs_swapext_item.c, scrub/xfile.c,
scrub/xfbtree.c, scrub/scrub.c), together with theorems settling the
specification claims about them.

Machine integers are modelled as Nat (u64 values; wraparound is written
explicitly as reduction mod 2^64 where the C code relies on it) and Int
(signed values and negative errno returns).  Bit tests on power-of-two
block sizes (IS_ALIGNED, ALIGN, masking with blocksize-1) are modelled
with Nat.mod / rounding, which agree with the C bit operations whenever
the block size is a power of two, as it always is in XFS.
-/

namespace Spec2Proof

/-! ### Errno constants

Negative errno values, as the kernel functions return them. -/

def EPERM : Int := 1
def ENOMEM : Int := 12
def EBUSY : Int := 16
def EINVAL : Int := 22
def ETXTBSY : Int := 26
def EFBIG : Int := 27
def EDOM : Int := 33
def EDEADLOCK : Int := 35
def ECHRNG : Int := 44
def EOPNOTSUPP : Int := 95
def EDQUOT : Int := 122
def E2BIG : Int := 7
def EAGAIN : Int := 11
def ENOSPC : Int := 28
def EFSCORRUPTED : Int := 117
def EFSBADCRC : Int := 74

/-! ### Generic VFS-level data model for range exchanges (xfs_xchgrange.c)

The fields of struct inode and struct xfs_exch_range that the generic
exchange-range code reads.  Offsets, lengths and sizes are u64/loff_t
values; i_size is always non-negative in the kernel, so Nat is used.
The fxr flags word is modelled as one Bool per flag bit. -/

structure VfsInode where
  /-- Distinguishes distinct struct inode objects (pointer identity). -/
  ptr : Nat
  i_ino : Nat
  ctime_sec : Nat
  ctime_nsec : Nat
  mtime_sec : Nat
  mtime_nsec : Nat
  immutable : Bool
  swapfile : Bool
  i_size : Nat
deriving DecidableEq

structure XfsExchRange where
  file1_offset : Nat
  file2_offset : Nat
  length : Nat
  /-- XFS_EXCH_RANGE_TO_EOF -/
  to_eof : Bool
  /-- XFS_EXCH_RANGE_FULL_FILES -/
  full_files : Bool
  /-- XFS_EXCH_RANGE_NONATOMIC -/
  nonatomic : Bool
  /-- XFS_EXCH_RANGE_FILE2_FRESH -/
  file2_fresh : Bool
  /-- XFS_EXCH_RANGE_DRY_RUN -/
  dry_run : Bool
  /-- XFS_EXCH_RANGE_FILE1_WRITTEN -/
  file1_written : Bool
  file2_ino : Nat
  file2_ctime : Nat
  file2_ctime_nsec : Nat
  file2_mtime : Nat
  file2_mtime_nsec : Nat
deriving DecidableEq

/-- u64 modulus: the C offset arithmetic is unsigned 64-bit. -/
def U64MOD : Nat := 2 ^ 64

/-- IS_ALIGNED(x, a) for a power-of-two a equals x % a == 0. -/
def isAligned (x a : Nat) : Bool := x % a == 0

/-- ALIGN(x, a): round x up to the next multiple of the power-of-two a. -/
def alignUp (x a : Nat) : Nat := ((x + a - 1) / a) * a

/-- Round x down to a multiple of the power-of-two a
(the C expression x & ~(a-1)). -/
def alignDown (x a : Nat) : Nat := (x / a) * a

/-- Embedding of xfs_exch_range_check_fresh: compare the caller's
freshness snapshot of file2 against the locked inode metadata.
Returns 0 or -EBUSY. -/
def xfs_exch_range_check_fresh (inode2 : VfsInode) (fxr : XfsExchRange) : Int :=
  if fxr.file2_fresh &&
      (fxr.file2_ino != inode2.i_ino ||
       fxr.file2_ctime != inode2.ctime_sec ||
       fxr.file2_ctime_nsec != inode2.ctime_nsec ||
       fxr.file2_mtime != inode2.mtime_sec ||
       fxr.file2_mtime_nsec != inode2.mtime_nsec) then
    -EBUSY
  else
    0

/-- Outcome of generic_write_check_limits, which lives outside this
repository: either an error, or a possibly clamped transfer length. -/
def WriteCheckLimits : Type := Nat → Nat → Except Int Nat

/-- Embedding of xfs_exch_range_checks.  The two generic_write_check_limits
calls (VFS code outside this repository) are abstracted as the gwcl1/gwcl2
oracles.  Returns 0 on success or a negative errno, and if the checks pass
with XFS_EXCH_RANGE_TO_EOF set the request length is rewritten; the
returned XfsExchRange carries that update. -/
def xfs_exch_range_checks (gwcl1 gwcl2 : WriteCheckLimits)
    (inode1 inode2 : VfsInode) (fxr : XfsExchRange) (blocksize : Nat) :
    Int × XfsExchRange :=
  let size1 := inode1.i_size
  let size2 := inode2.i_size
  -- Don't touch certain kinds of inodes
  if inode1.immutable || inode2.immutable then (-EPERM, fxr)
  else if inode1.swapfile || inode2.swapfile then (-ETXTBSY, fxr)
  -- Ranges cannot start after EOF.
  else if fxr.file1_offset > size1 || fxr.file2_offset > size2 then
    (-EINVAL, fxr)
  -- Full-files requests must cover all of both files.
  else if fxr.full_files &&
      (fxr.file1_offset != 0 || fxr.file2_offset != 0 ||
       fxr.length != size1 || fxr.length != size2) then
    (-EDOM, fxr)
  else
    -- TO_EOF: extend the length to cover everything to EOF in both files.
    let fxr := if fxr.to_eof then
        { fxr with length := max (size1 - fxr.file1_offset)
                                 (size2 - fxr.file2_offset) }
      else fxr
    -- The start of both ranges must be aligned to an fs block.
    if !isAligned fxr.file1_offset blocksize ||
       !isAligned fxr.file2_offset blocksize then
      (-EINVAL, fxr)
    -- Ensure offsets don't wrap (u64 addition).
    else if (fxr.file1_offset + fxr.length) % U64MOD < fxr.file1_offset ||
            (fxr.file2_offset + fxr.length) % U64MOD < fxr.file2_offset then
      (-EINVAL, fxr)
    -- Both ranges must end within EOF, unless exchanging to EOF.
    else if !fxr.to_eof &&
        (fxr.file1_offset + fxr.length > size1 ||
         fxr.file2_offset + fxr.length > size2) then
      (-EINVAL, fxr)
    else
      -- File size limits (generic_write_check_limits, called file2 first).
      match gwcl2 fxr.file2_offset fxr.length with
      | .error e => (e, fxr)
      | .ok l2 =>
        match gwcl1 fxr.file1_offset l2 with
        | .error e => (e, fxr)
        | .ok l1 =>
          if l1 != fxr.length then (-EINVAL, fxr)
          else
            -- Round up to block boundaries at EOF; otherwise require
            -- a block-aligned length.
            let blen? : Option Nat :=
              if fxr.file1_offset + fxr.length == size1 then
                some (alignUp size1 blocksize - fxr.file1_offset)
              else if fxr.file2_offset + fxr.length == size2 then
                some (alignUp size2 blocksize - fxr.file2_offset)
              else if !isAligned fxr.length blocksize then
                none
              else
                some fxr.length
            match blen? with
            | none => (-EINVAL, fxr)
            | some blen =>
              -- Don't allow overlapped exchanges within the same file.
              if inode1.ptr == inode2.ptr &&
                  fxr.file2_offset + blen > fxr.file1_offset &&
                  fxr.file1_offset + blen > fxr.file2_offset then
                (-EINVAL, fxr)
              else
                -- Early freshness check.
                let e := xfs_exch_range_check_fresh inode2 fxr
                if e != 0 then (e, fxr)
                -- No exchanging a partial EOF block into mid-file.
                else if fxr.length % blocksize == 0 then (0, fxr)
                else
                  let blen := fxr.length
                  let blen := if fxr.file2_offset + blen < size2 then
                      alignDown blen blocksize else blen
                  let blen := if fxr.file1_offset + blen < size1 then
                      alignDown blen blocksize else blen
                  if blen == fxr.length then (0, fxr) else (-EINVAL, fxr)

/-! ### XFS-side range exchange (xfs_xchg_range, xfs_xchgrange.c)

The XFS inode fields the exchange reads, the mount feature bits, and an
environment of outcomes for the fallible collaborators that live outside
this file (transaction allocation, resource estimation, quota
reservation, the legacy fork-swap, transaction commit).  The extent swap
itself and the timestamp updates are tracked as effect flags in the
result rather than as data, since the claims are about whether they
happen at all. -/

structure XfsInode where
  vfs : VfsInode
  i_disk_size : Nat
deriving DecidableEq

structure XfsMount where
  /-- xfs_swapext_supports_nonatomic(mp): rmap or reflink present. -/
  supports_nonatomic : Bool
deriving DecidableEq

structure XchgEnv where
  /-- error from xfs_xchg_range_estimate -/
  estimateErr : Int
  /-- error from xfs_trans_alloc, first and second (post quota retry) try -/
  transAllocErr1 : Int
  transAllocErr2 : Int
  /-- error from xfs_swapext_check_extents -/
  checkExtentsErr : Int
  /-- first xfs_xchg_range_reserve_quota outcome and its qretry bits -/
  quotaErr1 : Int
  qretry1 : Bool
  qretry2 : Bool
  /-- second xfs_xchg_range_reserve_quota outcome, after blockgc -/
  quotaErr2 : Int
  /-- error from xfs_swap_extents_check_format -/
  formatErr : Int
  /-- error from xfs_swap_extent_forks -/
  forkswapErr : Int
  /-- error from xfs_trans_commit -/
  commitErr : Int
deriving DecidableEq

/-- Effects and return value of one xfs_xchg_range call.  The effect
flags record whether the operation logged an extent swap, logged
change/modify time updates, committed its transaction, and exchanged the
incore file sizes. -/
structure XchgResult where
  error : Int
  swapped : Bool
  cmtime1 : Bool
  cmtime2 : Bool
  committed : Bool
  sizesExchanged : Bool
deriving DecidableEq

/-- A result that carries an error and no effects: every out_trans_cancel
path produces this shape. -/
def xchgErr (e : Int) : XchgResult :=
  ⟨e, false, false, false, false, false⟩

/-- Embedding of xfs_xchg_use_swapext: the intent-based swap is used if
the caller got log permission for SXI items, or the fs supports the
non-atomic BUI-tracked mode. -/
def xfs_xchg_use_swapext (mp : XfsMount) (logged : Bool) : Bool :=
  logged || mp.supports_nonatomic

/-- Embedding of xfs_xchg_use_forkswap: the legacy whole-fork swap needs
a non-atomic full-files request, not TO_EOF, both offsets zero, and the
length equal to both files' on-disk sizes. -/
def xfs_xchg_use_forkswap (fxr : XfsExchRange) (ip1 ip2 : XfsInode) : Bool :=
  if !fxr.nonatomic then false
  else if !fxr.full_files then false
  else if fxr.to_eof then false
  else if fxr.file1_offset != 0 || fxr.file2_offset != 0 then false
  else if fxr.length != ip1.i_disk_size then false
  else if fxr.length != ip2.i_disk_size then false
  else true

inductive XchgStrategy where
  | SWAPEXT
  | FORKSWAP
deriving DecidableEq

/-- Tail of xfs_xchg_range after a strategy was chosen: dry-run bailout,
timestamp updates, the swap itself, commit, and the incore size
exchange.  updc1/updc2 are the XFS_XCHG_RANGE_UPD_CMTIME1/2 bits. -/
def xfs_xchg_range_apply (env : XchgEnv) (fxr : XfsExchRange)
    (updc1 updc2 : Bool) (strategy : XchgStrategy) : XchgResult :=
  -- If we got this far on a dry run, all parameters are ok: cancel.
  if fxr.dry_run then xchgErr 0
  else
    let cm1 := updc1
    let cm2 := updc2
    match strategy with
    | .SWAPEXT =>
      -- xfs_swapext returns void; commit follows.
      if env.commitErr != 0 then
        ⟨env.commitErr, true, cm1, cm2, false, false⟩
      else
        ⟨0, true, cm1, cm2, true, fxr.to_eof⟩
    | .FORKSWAP =>
      if env.forkswapErr != 0 then
        -- out_trans_cancel: the transaction is cancelled, nothing persists.
        xchgErr env.forkswapErr
      else if env.commitErr != 0 then
        ⟨env.commitErr, true, cm1, cm2, false, false⟩
      else
        ⟨0, true, cm1, cm2, true, fxr.to_eof⟩

/-- One trip through the retry label of xfs_xchg_range: allocate the
transaction, lock, re-check freshness, check extents, reserve quota
(the caller supplies what to do on the once-only quota retry), select a
strategy and apply it. -/
def xfs_xchg_range_attempt (mp : XfsMount) (env : XchgEnv)
    (ip1 ip2 : XfsInode) (fxr : XfsExchRange)
    (logged updc1 updc2 : Bool) (retried : Bool)
    (onQuotaRetry : Unit → XchgResult) : XchgResult :=
  let tae := if retried then env.transAllocErr2 else env.transAllocErr1
  if tae != 0 then xchgErr tae
  else
    -- ILOCK taken; repeat the freshness check.
    let fe := xfs_exch_range_check_fresh ip2.vfs fxr
    if fe != 0 then xchgErr fe
    else if env.checkExtentsErr != 0 then xchgErr env.checkExtentsErr
    else
      let qe := if retried then env.quotaErr2 else env.quotaErr1
      if (qe == -EDQUOT || qe == -ENOSPC) && !retried then
        -- cancel, unlock, xfs_blockgc_free_quota, and retry once
        onQuotaRetry ()
      else if qe != 0 then xchgErr qe
      else if xfs_xchg_use_swapext mp logged then
        xfs_xchg_range_apply env fxr updc1 updc2 .SWAPEXT
      else if xfs_xchg_use_forkswap fxr ip1 ip2 then
        if env.formatErr != 0 then xchgErr env.formatErr
        else xfs_xchg_range_apply env fxr updc1 updc2 .FORKSWAP
      else
        -- We cannot exchange the file contents.
        xchgErr (-EOPNOTSUPP)

/-- Embedding of xfs_xchg_range.  The request-structure setup and the
realtime extent-size rounding only feed the abstracted estimate and swap
steps and are elided; the quota retry loop is unrolled to its bound of
one retry (the retried flag guards re-entry in the C code). -/
def xfs_xchg_range (mp : XfsMount) (env : XchgEnv)
    (ip1 ip2 : XfsInode) (fxr : XfsExchRange)
    (logged updc1 updc2 : Bool) : XchgResult :=
  if env.estimateErr != 0 then xchgErr env.estimateErr
  else
    xfs_xchg_range_attempt mp env ip1 ip2 fxr logged updc1 updc2 false
      (fun _ =>
        xfs_xchg_range_attempt mp env ip1 ip2 fxr logged updc1 updc2 true
          (fun _ => xchgErr 0))

/-! ### Swap-extent intent log items and recovery (xfs_swapext_item.c) -/

/-- Modelled from the spec: the XFS_SWAP_EXT_* flag bits of the SXI log
format ("fork selector (data/attr)", "set sizes on completion",
"logged/atomic" progress tracking).  Their numeric values live in
xfs_log_format.h, which is not part of this source tree; the claims do
not depend on the particular values, only on the mask of valid bits. -/
def XFS_SWAP_EXT_ATTR_FORK : Nat := 1

def XFS_SWAP_EXT_SET_SIZES : Nat := 2

def XFS_SWAP_EXT_INO1_WRITTEN : Nat := 4

def XFS_SWAP_EXT_FLAGS : Nat :=
  XFS_SWAP_EXT_ATTR_FORK + XFS_SWAP_EXT_SET_SIZES + XFS_SWAP_EXT_INO1_WRITTEN

/-- Bitwise complement of XFS_SWAP_EXT_FLAGS over u32, as used by the C
expression (sx_flags & ~XFS_SWAP_EXT_FLAGS). -/
def XFS_SWAP_EXT_FLAGMASK_INV : Nat := 2 ^ 32 - 1 - XFS_SWAP_EXT_FLAGS

/-- struct xfs_swap_extent: the payload of an SXI log record. -/
structure XfsSwapExtent where
  sx_inode1 : Nat
  sx_inode2 : Nat
  sx_startoff1 : Nat
  sx_startoff2 : Nat
  sx_blockcount : Nat
  sx_flags : Nat
  sx_isize1 : Int
  sx_isize2 : Int
deriving DecidableEq

/-- struct xfs_sxi_log_format: header padding plus the extent payload. -/
structure XfsSxiLogFormat where
  pad : Nat
  sxi_extent : XfsSwapExtent
deriving DecidableEq

/-- The mount attributes that SXI validation consults.  The leaf
predicates xfs_verify_ino and xfs_verify_fileext live in libxfs outside
this source tree and are abstracted as opaque-to-the-claim boolean
functions; xfs_sb_version_haslogswapext and
xfs_swapext_can_use_without_log_assistance are feature tests. -/
structure SxMount where
  haslogswapext : Bool
  can_use_without_log_assistance : Bool
  verify_ino : Nat → Bool
  verify_fileext : Nat → Nat → Bool

/-- Embedding of xfs_sxi_validate: is this recovered SXI ok? -/
def xfs_sxi_validate (mp : SxMount) (f : XfsSxiLogFormat) : Bool :=
  let sx := f.sxi_extent
  if !mp.haslogswapext && !mp.can_use_without_log_assistance then false
  else if f.pad != 0 then false
  else if Nat.land sx.sx_flags XFS_SWAP_EXT_FLAGMASK_INV != 0 then false
  else if !(mp.verify_ino sx.sx_inode1) || !(mp.verify_ino sx.sx_inode2) then
    false
  else if Nat.land sx.sx_flags XFS_SWAP_EXT_SET_SIZES != 0 &&
      (sx.sx_isize1 < 0 || sx.sx_isize2 < 0) then false
  else
    mp.verify_fileext sx.sx_startoff1 sx.sx_blockcount &&
      mp.verify_fileext sx.sx_startoff2 sx.sx_blockcount

/-- Outcomes of the fallible collaborators of xfs_sxi_item_recover:
grabbing the two inodes, estimating resources, allocating the recovery
transaction, finishing the swap, and the capture-and-commit step. -/
structure SxiRecoverEnv where
  igetErr1 : Int
  igetErr2 : Int
  estimateErr : Int
  transAllocErr : Int
  /-- result of xfs_swapext_finish_update: 0, -EAGAIN (more work), or error -/
  finishErr : Int
  commitErr : Int
deriving DecidableEq

/-- Result of recovering one SXI item: the errno, and whether the intent
was actually resumed (xfs_swapext_finish_update was reached). -/
structure SxiRecoverResult where
  error : Int
  resumed : Bool
deriving DecidableEq

/-- Embedding of xfs_sxi_item_recover: re-validate the logged intent,
re-create the incore intent state (xfs_sxi_item_recover_intent), then
resume the swap and commit.  A validation failure is reported as
-EFSCORRUPTED without resuming anything. -/
def xfs_sxi_item_recover (mp : SxMount) (env : SxiRecoverEnv)
    (f : XfsSxiLogFormat) : SxiRecoverResult :=
  if !xfs_sxi_validate mp f then ⟨-EFSCORRUPTED, false⟩
  else if env.igetErr1 != 0 then ⟨env.igetErr1, false⟩
  else if env.igetErr2 != 0 then ⟨env.igetErr2, false⟩
  else if env.estimateErr != 0 then ⟨env.estimateErr, false⟩
  else if env.transAllocErr != 0 then ⟨env.transAllocErr, false⟩
  else
    -- xfs_swapext_finish_update: resume the swap from the recorded state;
    -- -EAGAIN reschedules the remainder as deferred work and is success.
    let e := if env.finishErr == -EAGAIN then 0 else env.finishErr
    if e != 0 then ⟨e, true⟩
    else ⟨env.commitErr, true⟩

/-! ### In-memory staged btree (scrub/xfbtree.c) -/

/-- XFB_SHIFT = PAGE_SHIFT - BBSHIFT: converting an xfile block offset
to a 512-byte sector address shifts left by 3 (scrub/xfile.h). -/
def XFB_SHIFT : Nat := 3

/-- xfo_to_daddr (scrub/xfile.h): xfoff << XFB_SHIFT computed on the
64-bit xfileoff_t, so the C shift wraps modulo 2^64 for huge offsets. -/
def xfo_to_daddr (xfoff : Nat) : Nat := (xfoff * 2 ^ XFB_SHIFT) % U64MOD

/-- Block 0 of the xfile backing a staged btree holds the head block. -/
def XFBTREE_HEAD_BLOCK : Nat := 0

/-- The first allocatable block of a staged btree xfile. -/
def XFBTREE_INIT_LEAF_BLOCK : Nat := 1

/-- The cursor state xfbtree_check_ptr and the owner check consult.  The
buffer-target bound nr_sectors abstracts xfs_buftarg_verify_daddr
(xfs_buf.h, outside this source tree): a sector address is valid iff it
is below the target's sector count. -/
structure XfbCursor where
  long_ptrs : Bool
  nr_sectors : Nat
  owner : Nat
deriving DecidableEq

/-- union xfs_btree_ptr with both decodings (values after the
be64_to_cpu / be32_to_cpu conversion). -/
structure XfbBtreePtr where
  l : Nat
  s : Nat
deriving DecidableEq

/-- Embedding of xfbtree_check_ptr: decode the pointer, require it to
address a sector inside the buffer target, and forbid pointing at the
head block or anything before the first allocatable block.  Returns 0 or
-EFSCORRUPTED. -/
def xfbtree_check_ptr (cur : XfbCursor) (ptr : XfbBtreePtr) : Int :=
  let bt_xfoff := if cur.long_ptrs then ptr.l else ptr.s
  if !(xfo_to_daddr bt_xfoff < cur.nr_sectors) then -EFSCORRUPTED
  else if bt_xfoff < XFBTREE_INIT_LEAF_BLOCK then -EFSCORRUPTED
  else 0

/-- Embedding of xfbtree_check_block_owner: a loaded block's embedded
owner tag must equal the tree's owner; a mismatch returns a non-null
failure address (modelled as some ()).  The C function reads
bb_u.l.bb_owner for long-pointer trees and bb_u.s.bb_owner otherwise;
both branches perform the same comparison against xfbt->owner, so the
decoded owner value is a single field here. -/
def xfbtree_check_block_owner (cur : XfbCursor) (block_owner : Nat) :
    Option Unit :=
  if block_owner != cur.owner then some () else none

/-- Modelled from the spec: the generic btree block-load path (libxfs
xfs_btree.c, not under this source tree) turns a non-null failure
address from the owner check into -EFSCORRUPTED for the caller. -/
def xfbtree_load_block_owner_check (cur : XfbCursor) (block_owner : Nat) :
    Int :=
  match xfbtree_check_block_owner cur block_owner with
  | some _ => -EFSCORRUPTED
  | none => 0

/-- One log item attached to the transaction during xfbtree_trans_commit:
either a buffer belonging to this staged tree (with its dirty state and
whether its b_ops->verify_struct verifier passes), or some other item. -/
inductive XfbTransItem where
  | xfbBuf (dirty : Bool) (verifyOk : Bool)
  | other (liDirty : Bool)
deriving DecidableEq

/-- Accumulator of the xfbtree_trans_commit walk: the corruption latch,
the delwri buffer list (in reverse order), and the residual transaction
dirty flag. -/
structure XfbCommitState where
  corrupt : Bool
  bufferList : List XfbTransItem
  tpDirty : Bool
deriving DecidableEq

/-- One step of the xfbtree_trans_commit item walk. -/
def xfbtree_commit_step (st : XfbCommitState) (it : XfbTransItem) :
    XfbCommitState :=
  match it with
  | .other d => { st with tpDirty := st.tpDirty || d }
  | .xfbBuf dirty verifyOk =>
    if dirty && !st.corrupt then
      if !verifyOk then { st with corrupt := true }
      else { st with bufferList := it :: st.bufferList }
    else
      st

/-- Result of xfbtree_trans_commit: the returned errno and the buffers
actually written to the backing xfile. -/
structure XfbCommitResult where
  error : Int
  written : List XfbTransItem
deriving DecidableEq

/-- Embedding of xfbtree_trans_commit: walk the transaction items; for
each dirty buffer of this tree, run the structural verifier before
queueing it for writeback; if any dirty buffer failed verification,
cancel the queued writes and return -EFSCORRUPTED, so nothing reaches
the backing store.  submitErr is the xfs_buf_delwri_submit outcome. -/
def xfbtree_trans_commit (items : List XfbTransItem) (submitErr : Int) :
    XfbCommitResult :=
  let st := items.foldl xfbtree_commit_step ⟨false, [], false⟩
  if st.corrupt then ⟨-EFSCORRUPTED, []⟩
  else if st.bufferList.isEmpty then ⟨0, []⟩
  else ⟨submitErr, st.bufferList.reverse⟩

/-! ### Swappable memory store (scrub/xfile.c)

The xfile byte-stream primitives chunk a transfer into per-page pieces.
Acquiring the backing page for a chunk can fail (shmem page allocation,
or the write_end step in xfile_put_page); the acquire oracle returns
some errno for a failing page number and none for success.  This covers
both the cache-lookup path and the uncached get/put path of the C code,
which break out of the copy loop on the same conditions. -/

def PAGE_SIZE : Nat := 4096

/-- MAX_RW_COUNT = INT_MAX & PAGE_MASK. -/
def MAX_RW_COUNT : Nat := 2 ^ 31 - PAGE_SIZE

/-- The per-page transfer loop shared by xfile_pread and xfile_pwrite:
both walk the byte range a page at a time, stop at the first page
acquisition failure, and report how many bytes were transferred together
with the saved errno.  The fuel argument is the structural recursion
bound; every iteration moves at least one byte, so fuel = count suffices
and the fuel-exhausted case is unreachable from the entry points. -/
def xfile_rw_go (acquire : Nat → Option Int) :
    Nat → Nat → Nat → Nat → Nat × Int
  | _, 0, _, transferred => (transferred, 0)
  | 0, _, _, transferred => (transferred, 0)
  | fuel + 1, count, pos, transferred =>
    let len := min count (PAGE_SIZE - pos % PAGE_SIZE)
    match acquire (pos / PAGE_SIZE) with
    | some e => (transferred, e)
    | none => xfile_rw_go acquire fuel (count - len) (pos + len)
        (transferred + len)

/-- Embedding of xfile_pread: reject oversized (-E2BIG) and
out-of-range (-EFBIG) requests, then copy page by page; if any bytes
were transferred return that count, otherwise return the saved error.
maxBytes is the shmem superblock s_maxbytes. -/
def xfile_pread (acquire : Nat → Option Int) (maxBytes count pos : Nat) :
    Int :=
  if count > MAX_RW_COUNT then -E2BIG
  else if maxBytes - pos < count then -EFBIG
  else
    let r := xfile_rw_go acquire count count pos 0
    if r.1 > 0 then (r.1 : Int) else r.2

/-- Embedding of xfile_pwrite: identical control flow to xfile_pread
with the copy direction reversed, which does not affect the transferred
byte count or error reporting. -/
def xfile_pwrite (acquire : Nat → Option Int) (maxBytes count pos : Nat) :
    Int :=
  if count > MAX_RW_COUNT then -E2BIG
  else if maxBytes - pos < count then -EFBIG
  else
    let r := xfile_rw_go acquire count count pos 0
    if r.1 > 0 then (r.1 : Int) else r.2

/-- Embedding of xfile_obj_load (scrub/xfile.h): any error or short read
is treated as a failure to allocate memory. -/
def xfile_obj_load (acquire : Nat → Option Int) (maxBytes count pos : Nat) :
    Int :=
  let ret := xfile_pread acquire maxBytes count pos
  if ret < 0 || ret != (count : Int) then -ENOMEM else 0

/-- Embedding of xfile_obj_store (scrub/xfile.h): any error or short
write is treated as a failure to allocate memory. -/
def xfile_obj_store (acquire : Nat → Option Int) (maxBytes count pos : Nat) :
    Int :=
  let ret := xfile_pwrite acquire maxBytes count pos
  if ret < 0 || ret != (count : Int) then -ENOMEM else 0

/-! ### MemStore contents and the zero-fill invariant (xfile_get_page)

For the never-written-reads-zero invariant the store contents are
modelled per page: a page is an uptodate flag plus a byte function, and
the file maps page numbers to optional pages.  A page that shmem hands
back for the first time is not uptodate and holds arbitrary garbage
(the garbage parameter); xfile_get_page zero-fills exactly when the
page is not uptodate, then marks it uptodate and keeps it in the file
(set_page_dirty plus the page cache). -/

structure XfilePage where
  uptodate : Bool
  data : Nat → Nat

structure XfileMem where
  pages : Nat → Option XfilePage

def xfileEmpty : XfileMem := ⟨fun _ => none⟩

/-- Embedding of xfile_get_page for one page number: obtain the page
from the page cache (write_begin), zero-fill it if it is not uptodate,
and hand it out while the (now uptodate) page stays in the file. -/
def xfile_get_page (garbage : Nat → Nat) (xf : XfileMem) (pgno : Nat) :
    XfilePage × XfileMem :=
  let pg := (xf.pages pgno).getD ⟨false, garbage⟩
  let pg := if pg.uptodate then pg else ⟨true, fun _ => 0⟩
  (pg, ⟨fun i => if i == pgno then some pg else xf.pages i⟩)

/-- Reading one byte through the page obtained by xfile_get_page; this
is what the memcpy in the xfile_pread loop sees at that offset. -/
def xfile_read_byte (garbage : Nat → Nat) (xf : XfileMem) (pos : Nat) :
    Nat × XfileMem :=
  let r := xfile_get_page garbage xf (pos / PAGE_SIZE)
  (r.1.data (pos % PAGE_SIZE), r.2)

/-- State effect of the xfile_pwrite loop: page by page, fetch the page
and overwrite the in-page byte range with the caller's buffer. -/
def xfile_pwrite_go (garbage buf : Nat → Nat) :
    Nat → XfileMem → Nat → Nat → Nat → XfileMem
  | _, xf, 0, _, _ => xf
  | 0, xf, _, _, _ => xf
  | fuel + 1, xf, count, pos, bufoff =>
    let len := min count (PAGE_SIZE - pos % PAGE_SIZE)
    let pgno := pos / PAGE_SIZE
    let poff := pos % PAGE_SIZE
    let r := xfile_get_page garbage xf pgno
    let newdata : Nat → Nat := fun o =>
      if poff ≤ o ∧ o < poff + len then buf (bufoff + (o - poff))
      else r.1.data o
    let xf : XfileMem :=
      ⟨fun i => if i == pgno then some ⟨true, newdata⟩ else r.2.pages i⟩
    xfile_pwrite_go garbage buf fuel xf (count - len) (pos + len)
      (bufoff + len)

/-- State effect of the xfile_pread loop: reading also instantiates the
backing pages (zero-filled if fresh), page by page. -/
def xfile_pread_go (garbage : Nat → Nat) :
    Nat → XfileMem → Nat → Nat → XfileMem
  | _, xf, 0, _ => xf
  | 0, xf, _, _ => xf
  | fuel + 1, xf, count, pos =>
    let len := min count (PAGE_SIZE - pos % PAGE_SIZE)
    let r := xfile_get_page garbage xf (pos / PAGE_SIZE)
    xfile_pread_go garbage fuel r.2 (count - len) (pos + len)

/-- State effect of xfile_prealloc: ensure backing pages exist, page by
page, via the same get/put primitive. -/
def xfile_prealloc_go (garbage : Nat → Nat) :
    Nat → XfileMem → Nat → Nat → XfileMem
  | _, xf, 0, _ => xf
  | 0, xf, _, _ => xf
  | fuel + 1, xf, count, pos =>
    let len := min count (PAGE_SIZE - pos % PAGE_SIZE)
    let r := xfile_get_page garbage xf (pos / PAGE_SIZE)
    xfile_prealloc_go garbage fuel r.2 (count - len) (pos + len)

/-- The byte-stream operations whose sequences the invariant quantifies
over. -/
inductive XfileOp where
  | pwrite (buf : Nat → Nat) (count pos : Nat)
  | pread (count pos : Nat)
  | prealloc (count pos : Nat)

/-- State effect of one operation. -/
def xfile_apply_op (garbage : Nat → Nat) (xf : XfileMem) :
    XfileOp → XfileMem
  | .pwrite buf count pos => xfile_pwrite_go garbage buf count xf count pos 0
  | .pread count pos => xfile_pread_go garbage count xf count pos
  | .prealloc count pos => xfile_prealloc_go garbage count xf count pos

/-- Does this operation write the byte at offset off? -/
def xfile_op_writes (op : XfileOp) (off : Nat) : Bool :=
  match op with
  | .pwrite _ count pos => pos ≤ off && off < pos + count
  | _ => false

/-- Run a sequence of operations from the empty (freshly created,
sparse) xfile. -/
def xfile_run (garbage : Nat → Nat) (ops : List XfileOp) : XfileMem :=
  ops.foldl (xfile_apply_op garbage) xfileEmpty

/-! ### Scrub/repair dispatcher (scrub/scrub.c) -/

def ESHUTDOWN : Int := 108
def ENOTRECOVERABLE : Int := 131

/-- Behaviour of the collaborators of xfs_scrub_metadata.  setupRes and
scrubRes are indexed by the XCHK_TRY_HARDER and XCHK_NEED_DRAIN flag
state (they are sc->ops->setup / sc->ops->scrub outcomes, which react to
those flags); scrubRes additionally sees the XREP_ALREADY_FIXED latch,
standing for either sc->ops->scrub or sc->ops->repair_eval.  couldRepair
and willAttempt abstract xchk_could_repair / xrep_will_attempt
(scrub/common.h and scrub/repair.c, outside this source tree); the
ALREADY_FIXED part of xchk_could_repair is kept explicit in the model.
repairRes / repairFixes give the outcome of the n-th xrep_attempt and
whether it latched XREP_ALREADY_FIXED; teardownErr is the transaction
commit outcome inside xchk_teardown when it is entered without a prior
error while repairs were requested. -/
structure ScrubEnv where
  shutdown : Bool
  norecovery : Bool
  validateErr : Int
  allocFail : Bool
  repairRequested : Bool
  wantWriteErr : Int
  setupRes : Bool → Bool → Int
  scrubRes : Bool → Bool → Bool → Int
  scrubIncomplete : Bool → Bool → Bool → Bool
  couldRepair : Bool
  willAttempt : Bool
  repairRes : Nat → Int
  repairFixes : Nat → Bool
  teardownErr : Int

/-- Embedding of xchk_teardown's effect on the error value: entered with
no error while repairs were requested it commits the transaction (which
can fail); otherwise it passes the error through. -/
def xchk_teardown (env : ScrubEnv) (e : Int) : Int :=
  if e == 0 && env.repairRequested then env.teardownErr else e

/-- Result of one xfs_scrub_metadata call: the errno handed to the
caller, how often each escalation ran, and whether the out label turned
a corruption errno into the CORRUPT output flag. -/
structure ScrubOut where
  error : Int
  thCount : Nat
  ndCount : Nat
  oflagCorrupt : Bool
deriving DecidableEq

/-- The out label of xfs_scrub_metadata: -EFSCORRUPTED and -EFSBADCRC
are converted into the OFLAG_CORRUPT output flag and a zero return. -/
def scrub_finish (e : Int) (tc nc : Nat) : ScrubOut :=
  if e == -EFSCORRUPTED || e == -EFSBADCRC then ⟨0, tc, nc, true⟩
  else ⟨e, tc, nc, false⟩

/-- The retry_op loop of xfs_scrub_metadata: setup and scrub consume the
first -EDEADLOCK via the try_harder label and the first -ECHRNG via the
need_drain label (each guarded by its sticky flag, hence at most once);
a repair returning -EAGAIN tears down and goes back to retry_op.  The
arguments after fuel are the XCHK_TRY_HARDER and XCHK_NEED_DRAIN flags,
the two escalation counters, the repair attempt index, and the
XREP_ALREADY_FIXED latch.  fuel only bounds the -EAGAIN re-entry, which
the C code does not bound. -/
def scrub_retry_loop (env : ScrubEnv) :
    Nat → Bool → Bool → Nat → Nat → Nat → Bool → Option ScrubOut
  | 0, _, _, _, _, _, _ => none
  | fuel + 1, th, nd, tc, nc, att, fixed =>
    -- retry_op: take freeze protection when repairs are allowed
    if env.repairRequested && env.wantWriteErr != 0 then
      some (scrub_finish env.wantWriteErr tc nc)
    else
      let se := env.setupRes th nd
      if se == -EDEADLOCK && !th then
        let te := xchk_teardown env 0
        if te != 0 then some (scrub_finish te tc nc)
        else scrub_retry_loop env fuel true nd (tc + 1) nc att fixed
      else if se == -ECHRNG && !nd then
        let te := xchk_teardown env 0
        if te != 0 then some (scrub_finish te tc nc)
        else scrub_retry_loop env fuel th true tc (nc + 1) att fixed
      else if se != 0 then
        some (scrub_finish (xchk_teardown env se) tc nc)
      else
        let sc := env.scrubRes th nd fixed
        if sc == -EDEADLOCK && !th then
          let te := xchk_teardown env 0
          if te != 0 then some (scrub_finish te tc nc)
          else scrub_retry_loop env fuel true nd (tc + 1) nc att fixed
        else if sc == -ECHRNG && !nd then
          let te := xchk_teardown env 0
          if te != 0 then some (scrub_finish te tc nc)
          else scrub_retry_loop env fuel th true tc (nc + 1) att fixed
        else if sc != 0 || env.scrubIncomplete th nd fixed then
          some (scrub_finish (xchk_teardown env sc) tc nc)
        else if env.couldRepair && !fixed then
          if !env.willAttempt then
            -- no repair needed: report and tear down cleanly
            some (scrub_finish (xchk_teardown env 0) tc nc)
          else
            let re := env.repairRes att
            let fixed := fixed || env.repairFixes att
            if re == -EAGAIN then
              let te := xchk_teardown env 0
              if te != 0 then some (scrub_finish te tc nc)
              else scrub_retry_loop env fuel th nd tc nc (att + 1) fixed
            else
              some (scrub_finish (xchk_teardown env re) tc nc)
        else
          some (scrub_finish (xchk_teardown env 0) tc nc)

/-- Embedding of xfs_scrub_metadata: input validation, then the retry
loop.  Returns none only when the model's fuel for the unbounded
-EAGAIN repair loop runs out. -/
def xfs_scrub_metadata (env : ScrubEnv) (fuel : Nat) : Option ScrubOut :=
  if env.shutdown then some (scrub_finish (-ESHUTDOWN) 0 0)
  else if env.norecovery then some (scrub_finish (-ENOTRECOVERABLE) 0 0)
  else if env.validateErr != 0 then some (scrub_finish env.validateErr 0 0)
  else if env.allocFail then some (scrub_finish (-ENOMEM) 0 0)
  else scrub_retry_loop env fuel false false 0 0 0 false

/-! ### Helper lemmas -/

/-- The caller's freshness snapshot of file2 agrees with the locked
inode metadata. -/
def fresh_matches (inode2 : VfsInode) (fxr : XfsExchRange) : Prop :=
  fxr.file2_ino = inode2.i_ino ∧
  fxr.file2_ctime = inode2.ctime_sec ∧
  fxr.file2_ctime_nsec = inode2.ctime_nsec ∧
  fxr.file2_mtime = inode2.mtime_sec ∧
  fxr.file2_mtime_nsec = inode2.mtime_nsec

instance (inode2 : VfsInode) (fxr : XfsExchRange) :
    Decidable (fresh_matches inode2 fxr) := by
  unfold fresh_matches
  infer_instance

theorem check_fresh_of_stale (inode2 : VfsInode) (fxr : XfsExchRange)
    (hf : fxr.file2_fresh = true) (hm : ¬ fresh_matches inode2 fxr) :
    xfs_exch_range_check_fresh inode2 fxr = -EBUSY := by
  unfold xfs_exch_range_check_fresh
  unfold fresh_matches at hm
  push_neg at hm
  by_cases h1 : fxr.file2_ino = inode2.i_ino
  · by_cases h2 : fxr.file2_ctime = inode2.ctime_sec
    · by_cases h3 : fxr.file2_ctime_nsec = inode2.ctime_nsec
      · by_cases h4 : fxr.file2_mtime = inode2.mtime_sec
        · have h5 := hm h1 h2 h3 h4
          simp [hf, h1, h2, h3, h4, h5]
        · simp [hf, h1, h2, h3, h4]
      · simp [hf, h1, h2, h3]
    · simp [hf, h1, h2]
  · simp [hf, h1]

theorem check_fresh_of_match (inode2 : VfsInode) (fxr : XfsExchRange)
    (hm : fresh_matches inode2 fxr) :
    xfs_exch_range_check_fresh inode2 fxr = 0 := by
  obtain ⟨h1, h2, h3, h4, h5⟩ := hm
  unfold xfs_exch_range_check_fresh
  simp [h1, h2, h3, h4, h5]

theorem check_fresh_of_not_fresh (inode2 : VfsInode) (fxr : XfsExchRange)
    (hf : fxr.file2_fresh = false) :
    xfs_exch_range_check_fresh inode2 fxr = 0 := by
  unfold xfs_exch_range_check_fresh
  simp [hf]

/-! ### C4 -/

/-- C4: with the earlier inode-kind and range-start checks out of the
way, xfs_exch_range_checks rejects a FULL_FILES request whose offsets
are not both zero or whose length does not equal both files' sizes with
-EDOM, and rejects a request whose file1_offset is not aligned to the
allocation unit with -EINVAL; both checks are pure precondition tests
performed before any exchange work. -/
theorem exch_checks_full_files_edom_and_alignment_einval
    (gwcl1 gwcl2 : WriteCheckLimits) (inode1 inode2 : VfsInode)
    (fxr : XfsExchRange) (blocksize : Nat)
    (h1 : inode1.immutable = false) (h2 : inode2.immutable = false)
    (h3 : inode1.swapfile = false) (h4 : inode2.swapfile = false)
    (h5 : fxr.file1_offset ≤ inode1.i_size)
    (h6 : fxr.file2_offset ≤ inode2.i_size) :
    ((fxr.full_files = true ∧
        (fxr.file1_offset ≠ 0 ∨ fxr.file2_offset ≠ 0 ∨
         fxr.length ≠ inode1.i_size ∨ fxr.length ≠ inode2.i_size)) →
      (xfs_exch_range_checks gwcl1 gwcl2 inode1 inode2 fxr blocksize).1 =
        -EDOM) ∧
    ((fxr.full_files = false ∧ ¬ fxr.file1_offset % blocksize = 0) →
      (xfs_exch_range_checks gwcl1 gwcl2 inode1 inode2 fxr blocksize).1 =
        -EINVAL) := by
  constructor
  · rintro ⟨hff, hcover⟩
    unfold xfs_exch_range_checks
    simp [h1, h2, h3, h4, Nat.not_lt.2 h5, Nat.not_lt.2 h6, hff]
    rcases hcover with h | h | h | h <;> simp [h]
  · rintro ⟨hff, hal⟩
    unfold xfs_exch_range_checks
    by_cases ht : fxr.to_eof = true <;>
      simp [h1, h2, h3, h4, Nat.not_lt.2 h5, Nat.not_lt.2 h6, hff, ht,
        isAligned, hal]

/-- Witness for C4: a concrete full-files request of the wrong length is
rejected with -EDOM. -/
theorem exch_checks_full_files_edom_witness :
    (xfs_exch_range_checks (fun _ l => .ok l) (fun _ l => .ok l)
      ⟨1, 1, 0, 0, 0, 0, false, false, 4096⟩
      ⟨2, 2, 0, 0, 0, 0, false, false, 8192⟩
      ⟨0, 0, 4096, false, true, false, false, false, false, 2, 0, 0, 0, 0⟩
      4096).1 = -EDOM := by
  have h := (exch_checks_full_files_edom_and_alignment_einval
      (fun _ l => .ok l) (fun _ l => .ok l)
      ⟨1, 1, 0, 0, 0, 0, false, false, 4096⟩
      ⟨2, 2, 0, 0, 0, 0, false, false, 8192⟩
      ⟨0, 0, 4096, false, true, false, false, false, false, 2, 0, 0, 0, 0⟩
      4096 rfl rfl rfl rfl (by decide) (by decide)).1
  exact h ⟨rfl, by decide⟩

/-! ### C2 -/

/-- C2: once the transaction is allocated and the inode metadata locks
are taken, xfs_xchg_range repeats the freshness check; if the caller
supplied a file2 snapshot and file2 has been modified since, it aborts
with -EBUSY, performs no extent swap, logs no timestamp update, and
commits nothing. -/
theorem xchg_range_stale_snapshot_ebusy
    (mp : XfsMount) (env : XchgEnv) (ip1 ip2 : XfsInode)
    (fxr : XfsExchRange) (logged updc1 updc2 : Bool)
    (hEst : env.estimateErr = 0) (hTa : env.transAllocErr1 = 0)
    (hFr : fxr.file2_fresh = true) (hStale : ¬ fresh_matches ip2.vfs fxr) :
    (xfs_xchg_range mp env ip1 ip2 fxr logged updc1 updc2).error = -EBUSY ∧
    (xfs_xchg_range mp env ip1 ip2 fxr logged updc1 updc2).swapped = false ∧
    (xfs_xchg_range mp env ip1 ip2 fxr logged updc1 updc2).cmtime1 = false ∧
    (xfs_xchg_range mp env ip1 ip2 fxr logged updc1 updc2).cmtime2 = false ∧
    (xfs_xchg_range mp env ip1 ip2 fxr logged updc1 updc2).committed =
      false := by
  have hb := check_fresh_of_stale ip2.vfs fxr hFr hStale
  unfold xfs_xchg_range xfs_xchg_range_attempt
  simp [hEst, hTa, hb, EBUSY, xchgErr]

/-- Witness for C2: a concrete stale snapshot (the recorded inode number
differs) aborts a concrete exchange with -EBUSY and no effects. -/
theorem xchg_range_stale_snapshot_ebusy_witness :
    (xfs_xchg_range ⟨true⟩ ⟨0, 0, 0, 0, 0, false, false, 0, 0, 0, 0⟩
        ⟨⟨1, 11, 5, 6, 7, 8, false, false, 4096⟩, 4096⟩
        ⟨⟨2, 22, 5, 6, 7, 8, false, false, 4096⟩, 4096⟩
        ⟨0, 0, 4096, false, false, false, true, false, false,
          99, 5, 6, 7, 8⟩ true false false).error = -EBUSY := by
  exact (xchg_range_stale_snapshot_ebusy ⟨true⟩
    ⟨0, 0, 0, 0, 0, false, false, 0, 0, 0, 0⟩
    ⟨⟨1, 11, 5, 6, 7, 8, false, false, 4096⟩, 4096⟩
    ⟨⟨2, 22, 5, 6, 7, 8, false, false, 4096⟩, 4096⟩
    ⟨0, 0, 4096, false, false, false, true, false, false,
      99, 5, 6, 7, 8⟩ true false false rfl rfl rfl (by decide)).1

/-! ### C3 -/

/-- C3: strategy selection admits exactly two strategies.  The legacy
fork swap is eligible precisely for a non-atomic, full-files, not
TO_EOF request with both offsets zero and the length equal to both
files' on-disk sizes (hence equal sizes); when neither the intent-based
swap (permitted by log assistance or non-atomic BUI support) nor the
fork swap applies, a request that reached strategy selection fails with
-EOPNOTSUPP and no exchange work is performed. -/
theorem xchg_range_strategy_selection
    (mp : XfsMount) (env : XchgEnv) (ip1 ip2 : XfsInode)
    (fxr : XfsExchRange) (logged updc1 updc2 : Bool)
    (hEst : env.estimateErr = 0) (hTa : env.transAllocErr1 = 0)
    (hFresh : xfs_exch_range_check_fresh ip2.vfs fxr = 0)
    (hCk : env.checkExtentsErr = 0) (hQ : env.quotaErr1 = 0) :
    (xfs_xchg_use_forkswap fxr ip1 ip2 = true ↔
      (fxr.nonatomic = true ∧ fxr.full_files = true ∧ fxr.to_eof = false ∧
       fxr.file1_offset = 0 ∧ fxr.file2_offset = 0 ∧
       fxr.length = ip1.i_disk_size ∧ fxr.length = ip2.i_disk_size)) ∧
    (xfs_xchg_use_swapext mp logged = false →
      xfs_xchg_use_forkswap fxr ip1 ip2 = false →
      xfs_xchg_range mp env ip1 ip2 fxr logged updc1 updc2 =
        xchgErr (-EOPNOTSUPP)) := by
  constructor
  · unfold xfs_xchg_use_forkswap
    split_ifs <;> simp_all <;> tauto
  · intro hsw hfs
    unfold xfs_xchg_range xfs_xchg_range_attempt
    simp [hEst, hTa, hFresh, hCk, hQ, hsw, hfs, EDQUOT, ENOSPC]

/-- Witness for C3: a concrete atomic-mode request on a filesystem
without swapext support matches neither strategy and fails with
-EOPNOTSUPP, and a concrete full-files non-atomic request of matching
sizes is fork-swap eligible. -/
theorem xchg_range_strategy_selection_witness :
    (xfs_xchg_range ⟨false⟩ ⟨0, 0, 0, 0, 0, false, false, 0, 0, 0, 0⟩
        ⟨⟨1, 11, 5, 6, 7, 8, false, false, 4096⟩, 4096⟩
        ⟨⟨2, 22, 5, 6, 7, 8, false, false, 4096⟩, 4096⟩
        ⟨0, 0, 4096, false, false, false, false, false, false,
          0, 0, 0, 0, 0⟩ false false false) = xchgErr (-EOPNOTSUPP) := by
  have h := xchg_range_strategy_selection ⟨false⟩
    ⟨0, 0, 0, 0, 0, false, false, 0, 0, 0, 0⟩
    ⟨⟨1, 11, 5, 6, 7, 8, false, false, 4096⟩, 4096⟩
    ⟨⟨2, 22, 5, 6, 7, 8, false, false, 4096⟩, 4096⟩
    ⟨0, 0, 4096, false, false, false, false, false, false,
      0, 0, 0, 0, 0⟩ false false false rfl rfl (by decide) rfl rfl
  exact h.2 (by decide) (by decide)

/-! ### C1 -/

/-- C1: recovery of a logged SXI intent without a done record
re-validates it before doing anything else: an intent that fails
xfs_sxi_validate makes recovery return -EFSCORRUPTED without resuming
the swap; validation passing guarantees the padding is zero, no unknown
flag bits are set, both inode numbers verify, and both offset/length
ranges verify; and a valid intent whose incore re-creation succeeds is
actually resumed. -/
theorem sxi_recover_validates_before_resume (mp : SxMount)
    (env : SxiRecoverEnv) (f : XfsSxiLogFormat) :
    (xfs_sxi_validate mp f = false →
      xfs_sxi_item_recover mp env f = ⟨-EFSCORRUPTED, false⟩) ∧
    (xfs_sxi_validate mp f = true →
      f.pad = 0 ∧
      Nat.land f.sxi_extent.sx_flags XFS_SWAP_EXT_FLAGMASK_INV = 0 ∧
      mp.verify_ino f.sxi_extent.sx_inode1 = true ∧
      mp.verify_ino f.sxi_extent.sx_inode2 = true ∧
      mp.verify_fileext f.sxi_extent.sx_startoff1
        f.sxi_extent.sx_blockcount = true ∧
      mp.verify_fileext f.sxi_extent.sx_startoff2
        f.sxi_extent.sx_blockcount = true) ∧
    (xfs_sxi_validate mp f = true →
      env.igetErr1 = 0 → env.igetErr2 = 0 → env.estimateErr = 0 →
      env.transAllocErr = 0 →
      (xfs_sxi_item_recover mp env f).resumed = true) := by
  refine ⟨?_, ?_, ?_⟩
  · intro hv
    unfold xfs_sxi_item_recover
    simp [hv]
  · intro hv
    unfold xfs_sxi_validate at hv
    split_ifs at hv <;> simp_all
  · intro hv h1 h2 h3 h4
    unfold xfs_sxi_item_recover
    simp [hv, h1, h2, h3, h4]
    split_ifs <;> rfl

/-- Witness for C1: a concrete intent with nonzero padding is rejected
with -EFSCORRUPTED and not resumed, and a concrete valid intent with a
successful incore re-creation is resumed. -/
theorem sxi_recover_validates_before_resume_witness :
    xfs_sxi_item_recover
        ⟨true, false, fun _ => true, fun _ _ => true⟩
        ⟨0, 0, 0, 0, 0, 0⟩
        ⟨1, ⟨7, 8, 0, 0, 10, 0, 0, 0⟩⟩ = ⟨-EFSCORRUPTED, false⟩ ∧
    (xfs_sxi_item_recover
        ⟨true, false, fun _ => true, fun _ _ => true⟩
        ⟨0, 0, 0, 0, 0, 0⟩
        ⟨0, ⟨7, 8, 0, 0, 10, 0, 0, 0⟩⟩).resumed = true := by
  constructor
  · exact (sxi_recover_validates_before_resume
      ⟨true, false, fun _ => true, fun _ _ => true⟩ ⟨0, 0, 0, 0, 0, 0⟩
      ⟨1, ⟨7, 8, 0, 0, 10, 0, 0, 0⟩⟩).1 (by decide)
  · exact (sxi_recover_validates_before_resume
      ⟨true, false, fun _ => true, fun _ _ => true⟩ ⟨0, 0, 0, 0, 0, 0⟩
      ⟨0, ⟨7, 8, 0, 0, 10, 0, 0, 0⟩⟩).2.2 (by decide) rfl rfl rfl rfl

/-! ### C6 -/

/-- Closed form of xfbtree_check_ptr: corruption exactly when the
(wrapped) sector address misses the buffer target or the offset lies
below the first allocatable block. -/
theorem xfbtree_check_ptr_spec (cur : XfbCursor) (ptr : XfbBtreePtr) :
    xfbtree_check_ptr cur ptr =
      if ¬ xfo_to_daddr (if cur.long_ptrs then ptr.l else ptr.s) <
            cur.nr_sectors ∨
          (if cur.long_ptrs then ptr.l else ptr.s) <
            XFBTREE_INIT_LEAF_BLOCK then -EFSCORRUPTED
      else 0 := by
  unfold xfbtree_check_ptr
  rcases hb : cur.long_ptrs <;>
    [skip; skip] <;>
    simp only [hb, if_true, if_false, Bool.false_eq_true] <;>
    split_ifs <;> simp_all <;> omega

/-- C6 counterexample: the C xfo_to_daddr shift wraps modulo 2^64, so
the long pointer 2^61 + 5 wraps to sector address 40, passes the range
check against an 800-sector buffer target, and xfbtree_check_ptr
accepts it (returns 0) although its true sector offset lies far outside
the store's addressable range. -/
theorem xfbtree_check_ptr_wrap_accepted :
    xfbtree_check_ptr ⟨true, 800, 42⟩ ⟨2 ^ 61 + 5, 0⟩ = 0 ∧
    ¬ (2 ^ 61 + 5) * 2 ^ XFB_SHIFT < 800 := by
  constructor <;> decide

/-- C6 amended: xfbtree_check_ptr only ever returns 0 or -EFSCORRUPTED
(never a crash); it returns -EFSCORRUPTED exactly when the decoded
pointer's mod-2^64 wrapped sector address lies outside the buffer
target or the pointer references the head block / any offset below the
first allocatable block, so for every pointer whose sector address does
not wrap (all real block addresses) an out-of-range pointer is reported
as -EFSCORRUPTED as originally claimed; and a loaded non-head block
whose embedded owner tag differs from the tree's owner is reported as
-EFSCORRUPTED by the block-load owner check. -/
theorem xfbtree_ptr_wrapped_range_and_owner_verified (cur : XfbCursor)
    (ptr : XfbBtreePtr) (block_owner : Nat) :
    (xfbtree_check_ptr cur ptr = 0 ∨
      xfbtree_check_ptr cur ptr = -EFSCORRUPTED) ∧
    (xfbtree_check_ptr cur ptr = -EFSCORRUPTED ↔
      (¬ xfo_to_daddr (if cur.long_ptrs then ptr.l else ptr.s) <
          cur.nr_sectors ∨
       (if cur.long_ptrs then ptr.l else ptr.s) = XFBTREE_HEAD_BLOCK ∨
       (if cur.long_ptrs then ptr.l else ptr.s) <
          XFBTREE_INIT_LEAF_BLOCK)) ∧
    ((if cur.long_ptrs then ptr.l else ptr.s) * 2 ^ XFB_SHIFT < U64MOD →
      ¬ (if cur.long_ptrs then ptr.l else ptr.s) * 2 ^ XFB_SHIFT <
          cur.nr_sectors →
      xfbtree_check_ptr cur ptr = -EFSCORRUPTED) ∧
    (xfbtree_load_block_owner_check cur block_owner = -EFSCORRUPTED ↔
      block_owner ≠ cur.owner) ∧
    (block_owner = cur.owner →
      xfbtree_load_block_owner_check cur block_owner = 0) := by
  refine ⟨?_, ?_, ?_, ?_, ?_⟩
  · rw [xfbtree_check_ptr_spec]
    split_ifs <;> simp
  · rw [xfbtree_check_ptr_spec]
    generalize (if cur.long_ptrs then ptr.l else ptr.s) = x
    simp only [XFBTREE_HEAD_BLOCK, XFBTREE_INIT_LEAF_BLOCK]
    split_ifs with h
    · constructor
      · intro _
        omega
      · intro _
        rfl
    · rw [not_or, Nat.not_lt] at h
      constructor
      · intro hcon
        exact absurd hcon (by decide)
      · intro hr
        exfalso
        rcases hr with hr | hr | hr <;> omega
  · intro hnw hout
    have hx : xfo_to_daddr (if cur.long_ptrs then ptr.l else ptr.s) =
        (if cur.long_ptrs then ptr.l else ptr.s) * 2 ^ XFB_SHIFT := by
      unfold xfo_to_daddr
      exact Nat.mod_eq_of_lt hnw
    rw [xfbtree_check_ptr_spec, if_pos (Or.inl (by rw [hx]; exact hout))]
  · unfold xfbtree_load_block_owner_check xfbtree_check_block_owner
    split_ifs with h <;> simp_all [EFSCORRUPTED]
  · intro h
    unfold xfbtree_load_block_owner_check xfbtree_check_block_owner
    simp [h]

/-- Witness for the C6 amended theorem: a concrete non-wrapping
out-of-range pointer (block 200 of an 800-sector target) is rejected
with -EFSCORRUPTED, a matching owner tag passes, and a mismatched one
is corruption. -/
theorem xfbtree_ptr_wrapped_range_and_owner_verified_witness :
    xfbtree_check_ptr ⟨true, 800, 42⟩ ⟨200, 0⟩ = -EFSCORRUPTED ∧
    xfbtree_load_block_owner_check ⟨true, 800, 42⟩ 42 = 0 ∧
    xfbtree_load_block_owner_check ⟨true, 800, 42⟩ 7 = -EFSCORRUPTED := by
  have h := xfbtree_ptr_wrapped_range_and_owner_verified
    ⟨true, 800, 42⟩ ⟨200, 0⟩ 42
  have h2 := xfbtree_ptr_wrapped_range_and_owner_verified
    ⟨true, 800, 42⟩ ⟨200, 0⟩ 7
  exact ⟨h.2.2.1 (by decide) (by decide), h.2.2.2.2 rfl,
    h2.2.2.2.1.2 (by decide)⟩

/-! ### C5 -/

theorem xfbtree_commit_fold_corrupt_mono (items : List XfbTransItem)
    (st : XfbCommitState) (h : st.corrupt = true) :
    (items.foldl xfbtree_commit_step st).corrupt = true := by
  induction items generalizing st with
  | nil => exact h
  | cons it rest ih =>
    simp only [List.foldl_cons]
    apply ih
    unfold xfbtree_commit_step
    cases it <;> simp [h]

theorem xfbtree_commit_fold_corrupt_of_bad (items : List XfbTransItem)
    (st : XfbCommitState)
    (h : ∃ it ∈ items, it = XfbTransItem.xfbBuf true false) :
    (items.foldl xfbtree_commit_step st).corrupt = true := by
  induction items generalizing st with
  | nil => simp at h
  | cons it rest ih =>
    simp only [List.foldl_cons]
    rcases h with ⟨b, hb, hbad⟩
    rcases List.mem_cons.1 hb with hhd | htl
    · subst hhd
      subst hbad
      by_cases hc : st.corrupt = true
      · exact xfbtree_commit_fold_corrupt_mono rest _
          (by unfold xfbtree_commit_step; simp [hc])
      · apply xfbtree_commit_fold_corrupt_mono rest
        unfold xfbtree_commit_step
        simp at hc
        simp [hc]
    · exact ih _ ⟨b, htl, hbad⟩

theorem xfbtree_commit_fold_buflist_good (items : List XfbTransItem)
    (st : XfbCommitState)
    (h : ∀ b ∈ st.bufferList, b = XfbTransItem.xfbBuf true true) :
    ∀ b ∈ (items.foldl xfbtree_commit_step st).bufferList,
      b = XfbTransItem.xfbBuf true true := by
  induction items generalizing st with
  | nil => exact h
  | cons it rest ih =>
    simp only [List.foldl_cons]
    apply ih
    cases it with
    | other d => simpa [xfbtree_commit_step] using h
    | xfbBuf dirty verifyOk =>
      simp only [xfbtree_commit_step]
      split_ifs with h1 h2
      · simpa using h
      · intro b hb
        simp only at hb
        rcases List.mem_cons.1 hb with hhd | htl
        · subst hhd
          simp only [Bool.and_eq_true, Bool.not_eq_true] at h1
          cases verifyOk with
          | false => simp at h2
          | true => simp [h1.1]
        · exact h b htl
      · exact h

/-- C5: if any dirty staged-tree buffer attached to the transaction
fails its structural verifier, xfbtree_trans_commit returns
-EFSCORRUPTED and writes nothing at all to the backing xfile; and every
buffer that is written was a dirty tree buffer whose verifier passed
before the flush. -/
theorem xfbtree_commit_verifier_gates_writeback
    (items : List XfbTransItem) (submitErr : Int) :
    ((∃ it ∈ items, it = XfbTransItem.xfbBuf true false) →
      xfbtree_trans_commit items submitErr =
        ⟨-EFSCORRUPTED, []⟩) ∧
    (∀ b ∈ (xfbtree_trans_commit items submitErr).written,
      b = XfbTransItem.xfbBuf true true) := by
  constructor
  · intro h
    unfold xfbtree_trans_commit
    simp [xfbtree_commit_fold_corrupt_of_bad items _ h]
  · intro b hb
    unfold xfbtree_trans_commit at hb
    have hgood := xfbtree_commit_fold_buflist_good items
      ⟨false, [], false⟩ (by simp)
    by_cases hc : (items.foldl xfbtree_commit_step
        ⟨false, [], false⟩).corrupt = true
    · simp [hc] at hb
    · simp [hc] at hb
      split_ifs at hb with he
      · simp at hb
      · simp only [XfbCommitResult.mk.injEq] at hb
        exact hgood b (List.mem_reverse.1 hb)

/-- Witness for C5: a concrete transaction holding one clean-verifying
dirty buffer and one failing dirty buffer commits to -EFSCORRUPTED with
an empty write list. -/
theorem xfbtree_commit_verifier_gates_writeback_witness :
    xfbtree_trans_commit
        [XfbTransItem.xfbBuf true true, XfbTransItem.other true,
         XfbTransItem.xfbBuf true false] 0 = ⟨-EFSCORRUPTED, []⟩ := by
  exact (xfbtree_commit_verifier_gates_writeback
    [XfbTransItem.xfbBuf true true, XfbTransItem.other true,
     XfbTransItem.xfbBuf true false] 0).1
    ⟨XfbTransItem.xfbBuf true false, by simp, rfl⟩

/-! ### C7 -/

/-- C7 counterexample: with the second backing page failing to be
acquired (out of memory), a two-page xfile_pread transfers only the
first 4096 of 8192 requested bytes and reports the short transfer as a
positive byte count, not as an error. -/
theorem xfile_pread_short_transfer_counterexample :
    xfile_pread (fun p => if p == 0 then none else some (-ENOMEM))
        (2 ^ 62) 8192 0 = 4096 ∧
    (0 : Int) < 4096 ∧ (4096 : Int) < 8192 := by
  refine ⟨?_, by decide, by decide⟩
  decide

/-- When no page acquisition fails, the shared transfer loop moves every
requested byte. -/
theorem xfile_rw_go_all_ok (acquire : Nat → Option Int)
    (hok : ∀ p, acquire p = none) :
    ∀ fuel count pos transferred, count ≤ fuel →
      xfile_rw_go acquire fuel count pos transferred =
        (transferred + count, 0) := by
  intro fuel
  induction fuel with
  | zero =>
    intro count pos transferred hc
    have : count = 0 := Nat.le_zero.1 hc
    subst this
    simp [xfile_rw_go]
  | succ fuel ih =>
    intro count pos transferred hc
    cases count with
    | zero => simp [xfile_rw_go]
    | succ c =>
      have hpp : 0 < PAGE_SIZE - pos % PAGE_SIZE := by
        have := Nat.mod_lt pos (show 0 < PAGE_SIZE by decide)
        omega
      simp only [xfile_rw_go, hok]
      rw [ih]
      · have : (c + 1) ⊓ (PAGE_SIZE - pos % PAGE_SIZE) ≤ c + 1 :=
          Nat.min_le_left _ _
        rw [Prod.mk.injEq]
        refine ⟨by omega, rfl⟩
      · omega

/-- C7 amended: the exactly-len-or-error contract holds one layer up:
xfile_obj_load and xfile_obj_store accept exactly a full transfer and
turn every error or short transfer into -ENOMEM, and when no page
acquisition fails a request passing the size checks transfers exactly
count bytes. -/
theorem xfile_obj_transfer_exact_or_enomem (acquire : Nat → Option Int)
    (maxBytes count pos : Nat) :
    (xfile_obj_load acquire maxBytes count pos = 0 ↔
      xfile_pread acquire maxBytes count pos = (count : Int)) ∧
    (xfile_obj_store acquire maxBytes count pos = 0 ↔
      xfile_pwrite acquire maxBytes count pos = (count : Int)) ∧
    (count ≤ MAX_RW_COUNT → count ≤ maxBytes - pos →
      (∀ p, acquire p = none) →
      xfile_pread acquire maxBytes count pos = (count : Int) ∧
      xfile_pwrite acquire maxBytes count pos = (count : Int)) := by
  refine ⟨?_, ?_, ?_⟩
  · unfold xfile_obj_load
    constructor
    · intro h0
      by_contra hne
      rw [if_pos (by simp [hne])] at h0
      exact absurd h0 (by decide)
    · intro h
      rw [h]
      simp
  · unfold xfile_obj_store
    constructor
    · intro h0
      by_contra hne
      rw [if_pos (by simp [hne])] at h0
      exact absurd h0 (by decide)
    · intro h
      rw [h]
      simp
  · intro h1 h2 hok
    have hloop := xfile_rw_go_all_ok acquire hok count count pos 0
      (le_refl count)
    constructor
    · unfold xfile_pread
      rw [if_neg (by omega), if_neg (by omega), hloop]
      cases count with
      | zero => simp
      | succ c => simp
    · unfold xfile_pwrite
      rw [if_neg (by omega), if_neg (by omega), hloop]
      cases count with
      | zero => simp
      | succ c => simp

/-- Witness for the C7 amended theorem: a concrete one-byte load
succeeds exactly, and a failure-free two-page transfer is exact. -/
theorem xfile_obj_transfer_exact_or_enomem_witness :
    xfile_obj_load (fun _ => none) (2 ^ 62) 8192 0 = 0 ∧
    xfile_pwrite (fun _ => none) (2 ^ 62) 8192 0 = (8192 : Int) := by
  have h := xfile_obj_transfer_exact_or_enomem (fun _ => none) (2 ^ 62)
    8192 0
  have hfull := h.2.2 (by decide) (by decide) (fun _ => rfl)
  exact ⟨h.1.2 hfull.1, hfull.2⟩

/-! ### C10 -/

/-- No observable exchange effect: nothing swapped, no timestamp update
logged, nothing committed, no incore size exchange. -/
def noXchgEffects (r : XchgResult) : Prop :=
  r.swapped = false ∧ r.cmtime1 = false ∧ r.cmtime2 = false ∧
  r.committed = false ∧ r.sizesExchanged = false

theorem xchg_apply_dry (env : XchgEnv) (fxr : XfsExchRange)
    (u1 u2 : Bool) (s : XchgStrategy) (hdry : fxr.dry_run = true) :
    xfs_xchg_range_apply env fxr u1 u2 s = xchgErr 0 := by
  unfold xfs_xchg_range_apply
  simp [hdry]

set_option maxHeartbeats 2000000 in
theorem xchg_attempt_dry_no_effects (mp : XfsMount) (env : XchgEnv)
    (ip1 ip2 : XfsInode) (fxr : XfsExchRange) (logged u1 u2 : Bool)
    (retried : Bool) (onQ : Unit → XchgResult)
    (hdry : fxr.dry_run = true) (hQ : noXchgEffects (onQ ())) :
    noXchgEffects
      (xfs_xchg_range_attempt mp env ip1 ip2 fxr logged u1 u2 retried
        onQ) := by
  unfold xfs_xchg_range_attempt
  dsimp only
  split_ifs <;>
    first
    | exact hQ
    | (rw [xchg_apply_dry env fxr u1 u2 _ hdry]
       exact ⟨rfl, rfl, rfl, rfl, rfl⟩)
    | exact ⟨rfl, rfl, rfl, rfl, rfl⟩

set_option maxHeartbeats 2000000 in
theorem xchg_attempt_dry_same_error (mp : XfsMount) (env : XchgEnv)
    (ip1 ip2 : XfsInode) (fxr : XfsExchRange) (logged u1 u2 : Bool)
    (retried : Bool) (onQ onQ2 : Unit → XchgResult)
    (hdry : fxr.dry_run = true)
    (hQ : (onQ2 ()).error = (onQ ()).error ∨ (onQ ()).error = 0) :
    (xfs_xchg_range_attempt mp env ip1 ip2
        { fxr with dry_run := false } logged u1 u2 retried onQ2).error =
      (xfs_xchg_range_attempt mp env ip1 ip2 fxr logged u1 u2 retried
        onQ).error ∨
    (xfs_xchg_range_attempt mp env ip1 ip2 fxr logged u1 u2 retried
        onQ).error = 0 := by
  have hfresh : xfs_exch_range_check_fresh ip2.vfs
      { fxr with dry_run := false } =
      xfs_exch_range_check_fresh ip2.vfs fxr := rfl
  have hfs : xfs_xchg_use_forkswap { fxr with dry_run := false } ip1 ip2 =
      xfs_xchg_use_forkswap fxr ip1 ip2 := rfl
  unfold xfs_xchg_range_attempt
  dsimp only
  simp only [hfresh, hfs]
  split_ifs <;>
    first
    | exact hQ
    | (rw [xchg_apply_dry env fxr u1 u2 _ hdry]
       exact Or.inr rfl)
    | exact Or.inl rfl

set_option maxHeartbeats 2000000 in
/-- C10: a DRY_RUN exchange that has passed every precondition,
freshness, quota and strategy check cancels its transaction instead of
applying the swap — nothing is swapped, no timestamps are logged,
nothing commits, no sizes are exchanged — and any error a DRY_RUN
request reports is exactly the error the same request without DRY_RUN
would report. -/
theorem xchg_range_dry_run_frame (mp : XfsMount) (env : XchgEnv)
    (ip1 ip2 : XfsInode) (fxr : XfsExchRange) (logged u1 u2 : Bool)
    (hdry : fxr.dry_run = true) :
    noXchgEffects (xfs_xchg_range mp env ip1 ip2 fxr logged u1 u2) ∧
    ((xfs_xchg_range mp env ip1 ip2 fxr logged u1 u2).error ≠ 0 →
      (xfs_xchg_range mp env ip1 ip2 { fxr with dry_run := false }
          logged u1 u2).error =
        (xfs_xchg_range mp env ip1 ip2 fxr logged u1 u2).error) := by
  constructor
  · unfold xfs_xchg_range
    split_ifs with h1
    · exact ⟨rfl, rfl, rfl, rfl, rfl⟩
    · apply xchg_attempt_dry_no_effects mp env ip1 ip2 fxr logged u1 u2
        false _ hdry
      apply xchg_attempt_dry_no_effects mp env ip1 ip2 fxr logged u1 u2
        true _ hdry
      exact ⟨rfl, rfl, rfl, rfl, rfl⟩
  · intro hne
    unfold xfs_xchg_range at hne ⊢
    split_ifs at hne ⊢ with h1
    · rfl
    · have hinner := xchg_attempt_dry_same_error mp env ip1 ip2 fxr
        logged u1 u2 true (fun _ => xchgErr 0) (fun _ => xchgErr 0) hdry
        (Or.inl rfl)
      have houter := xchg_attempt_dry_same_error mp env ip1 ip2 fxr
        logged u1 u2 false
        (fun _ => xfs_xchg_range_attempt mp env ip1 ip2 fxr logged u1 u2
          true (fun _ => xchgErr 0))
        (fun _ => xfs_xchg_range_attempt mp env ip1 ip2
          { fxr with dry_run := false } logged u1 u2 true
          (fun _ => xchgErr 0))
        hdry hinner
      rcases houter with h | h
      · exact h
      · exact absurd h hne

/-- Witness for C10: a concrete dry-run request that passes every check
returns success with no effects, and a concrete dry-run request that
fails strategy selection reports the same -EOPNOTSUPP as its real
counterpart. -/
theorem xchg_range_dry_run_frame_witness :
    noXchgEffects (xfs_xchg_range ⟨true⟩
        ⟨0, 0, 0, 0, 0, false, false, 0, 0, 0, 0⟩
        ⟨⟨1, 11, 5, 6, 7, 8, false, false, 4096⟩, 4096⟩
        ⟨⟨2, 22, 5, 6, 7, 8, false, false, 4096⟩, 4096⟩
        ⟨0, 0, 4096, false, false, false, false, true, false,
          0, 0, 0, 0, 0⟩ true false false) := by
  exact (xchg_range_dry_run_frame ⟨true⟩
    ⟨0, 0, 0, 0, 0, false, false, 0, 0, 0, 0⟩
    ⟨⟨1, 11, 5, 6, 7, 8, false, false, 4096⟩, 4096⟩
    ⟨⟨2, 22, 5, 6, 7, 8, false, false, 4096⟩, 4096⟩
    ⟨0, 0, 4096, false, false, false, false, true, false,
      0, 0, 0, 0, 0⟩ true false false rfl).1

/-! ### C9 -/

/-- C9 counterexample: if setup keeps signalling -EDEADLOCK, the
try-harder escalation runs once and the second -EDEADLOCK is returned to
the end caller, so the dispatcher does not consume every such signal. -/
theorem scrub_metadata_second_edeadlock_surfaces :
    xfs_scrub_metadata
        ⟨false, false, 0, false, false, 0, fun _ _ => -EDEADLOCK,
          fun _ _ _ => 0, fun _ _ _ => false, false, false, fun _ => 0,
          fun _ => false, 0⟩ 3 =
      some ⟨-EDEADLOCK, 1, 0, false⟩ := by
  decide

theorem xchk_teardown_zero (env : ScrubEnv) :
    xchk_teardown env 0 = env.teardownErr ∨ xchk_teardown env 0 = 0 := by
  unfold xchk_teardown
  split_ifs <;> simp

theorem xchk_teardown_nonzero (env : ScrubEnv) (e : Int) (h : e ≠ 0) :
    xchk_teardown env e = e := by
  unfold xchk_teardown
  split_ifs with hc
  · simp at hc
    exact absurd hc.1 h
  · rfl

theorem scrub_finish_error (e : Int) (tc nc : Nat) :
    (scrub_finish e tc nc).error = e ∨ (scrub_finish e tc nc).error = 0 := by
  unfold scrub_finish
  split_ifs <;> simp

theorem scrub_finish_counts (e : Int) (tc nc : Nat) :
    (scrub_finish e tc nc).thCount = tc ∧
      (scrub_finish e tc nc).ndCount = nc := by
  unfold scrub_finish
  split_ifs <;> exact ⟨rfl, rfl⟩

/-- An errno is a concurrency retry signal. -/
def isRetrySignal (e : Int) : Prop := e = -EDEADLOCK ∨ e = -ECHRNG

instance (e : Int) : Decidable (isRetrySignal e) := by
  unfold isRetrySignal
  infer_instance

theorem scrub_finish_ok (e : Int) (tc nc : Nat) (he : ¬ isRetrySignal e) :
    ¬ isRetrySignal (scrub_finish e tc nc).error ∧
      (scrub_finish e tc nc).thCount = tc ∧
      (scrub_finish e tc nc).ndCount = nc := by
  rcases scrub_finish_error e tc nc with h | h <;>
    refine ⟨by rw [h]; first | exact he | decide,
      (scrub_finish_counts e tc nc).1, (scrub_finish_counts e tc nc).2⟩

theorem scrub_teardown0_ok (env : ScrubEnv)
    (htd : ¬ isRetrySignal env.teardownErr) :
    ¬ isRetrySignal (xchk_teardown env 0) := by
  rcases xchk_teardown_zero env with h | h <;> rw [h]
  · exact htd
  · decide

theorem scrub_finish_le (e : Int) (tc nc a b : Nat)
    (he : ¬ isRetrySignal e) :
    ¬ isRetrySignal (scrub_finish e tc nc).error ∧
    (scrub_finish e tc nc).thCount ≤ tc + a ∧
    (scrub_finish e tc nc).ndCount ≤ nc + b := by
  obtain ⟨h1, h2, h3⟩ := scrub_finish_ok e tc nc he
  exact ⟨h1, by omega, by omega⟩

theorem bool_guard_true (x y : Int) (b : Bool)
    (hc : ¬ ((x == y && !b) = true)) (hx : x = y) : b = true := by
  cases b with
  | true => rfl
  | false => exact absurd (by simp [hx]) hc

theorem bool_guard_false (x y : Int) (b : Bool)
    (hc : (x == y && !b) = true) : b = false := by
  cases b with
  | false => rfl
  | true => simp at hc

set_option maxHeartbeats 2000000 in
/-- The generalized retry-loop invariant behind the amended C9: if the
collaborators never re-raise -EDEADLOCK once XCHK_TRY_HARDER is set nor
-ECHRNG once XCHK_NEED_DRAIN is set (and no other collaborator produces
those codes at all), then whatever the loop returns is not a retry
signal, and each escalation is taken at most once beyond the entry
counts. -/
theorem scrub_retry_loop_consumes_signals (env : ScrubEnv)
    (hsu1 : ∀ nd, env.setupRes true nd ≠ -EDEADLOCK)
    (hsu2 : ∀ th, env.setupRes th true ≠ -ECHRNG)
    (hsc1 : ∀ nd f, env.scrubRes true nd f ≠ -EDEADLOCK)
    (hsc2 : ∀ th f, env.scrubRes th true f ≠ -ECHRNG)
    (hrep : ∀ n, ¬ isRetrySignal (env.repairRes n))
    (hww : ¬ isRetrySignal env.wantWriteErr)
    (htd : ¬ isRetrySignal env.teardownErr) :
    ∀ fuel th nd tc nc att fixed out,
      scrub_retry_loop env fuel th nd tc nc att fixed = some out →
      ¬ isRetrySignal out.error ∧
      out.thCount ≤ tc + (if th then 0 else 1) ∧
      out.ndCount ≤ nc + (if nd then 0 else 1) := by
  intro fuel
  induction fuel with
  | zero =>
    intro th nd tc nc att fixed out h
    exact Option.noConfusion h
  | succ fuel ih =>
    intro th nd tc nc att fixed out h
    unfold scrub_retry_loop at h
    dsimp only at h
    by_cases c1 : (env.repairRequested && env.wantWriteErr != 0) = true
    · rw [if_pos c1, Option.some_inj] at h
      subst h
      exact scrub_finish_le _ _ _ _ _ hww
    · rw [if_neg c1] at h
      by_cases c2 : (env.setupRes th nd == -EDEADLOCK && !th) = true
      · rw [if_pos c2] at h
        by_cases c3 : (xchk_teardown env 0 != 0) = true
        · rw [if_pos c3, Option.some_inj] at h
          subst h
          exact scrub_finish_le _ _ _ _ _ (scrub_teardown0_ok env htd)
        · rw [if_neg c3] at h
          replace h := ih _ _ _ _ _ _ _ h
          have hth := bool_guard_false _ _ _ c2
          subst hth
          refine ⟨h.1, ?_, h.2.2⟩
          have h21 := h.2.1
          simp only [if_pos] at h21 ⊢
          simpa using h21
      · rw [if_neg c2] at h
        by_cases c4 : (env.setupRes th nd == -ECHRNG && !nd) = true
        · rw [if_pos c4] at h
          by_cases c5 : (xchk_teardown env 0 != 0) = true
          · rw [if_pos c5, Option.some_inj] at h
            subst h
            exact scrub_finish_le _ _ _ _ _ (scrub_teardown0_ok env htd)
          · rw [if_neg c5] at h
            replace h := ih _ _ _ _ _ _ _ h
            have hnd := bool_guard_false _ _ _ c4
            subst hnd
            refine ⟨h.1, h.2.1, ?_⟩
            have h22 := h.2.2
            simpa using h22
        · rw [if_neg c4] at h
          by_cases c6 : (env.setupRes th nd != 0) = true
          · rw [if_pos c6, Option.some_inj] at h
            subst h
            refine scrub_finish_le _ _ _ _ _ ?_
            have hse : env.setupRes th nd ≠ 0 := by simpa using c6
            rw [xchk_teardown_nonzero env _ hse]
            rintro (hb | hb)
            · have hth := bool_guard_true _ _ th c2 hb
              rw [hth] at hb
              exact hsu1 nd hb
            · have hnd := bool_guard_true _ _ nd c4 hb
              rw [hnd] at hb
              exact hsu2 th hb
          · rw [if_neg c6] at h
            by_cases c7 : (env.scrubRes th nd fixed == -EDEADLOCK && !th) = true
            · rw [if_pos c7] at h
              by_cases c8 : (xchk_teardown env 0 != 0) = true
              · rw [if_pos c8, Option.some_inj] at h
                subst h
                exact scrub_finish_le _ _ _ _ _ (scrub_teardown0_ok env htd)
              · rw [if_neg c8] at h
                replace h := ih _ _ _ _ _ _ _ h
                have hth := bool_guard_false _ _ _ c7
                subst hth
                refine ⟨h.1, ?_, h.2.2⟩
                have h21 := h.2.1
                simpa using h21
            · rw [if_neg c7] at h
              by_cases c9 : (env.scrubRes th nd fixed == -ECHRNG && !nd) = true
              · rw [if_pos c9] at h
                by_cases c10 : (xchk_teardown env 0 != 0) = true
                · rw [if_pos c10, Option.some_inj] at h
                  subst h
                  exact scrub_finish_le _ _ _ _ _ (scrub_teardown0_ok env htd)
                · rw [if_neg c10] at h
                  replace h := ih _ _ _ _ _ _ _ h
                  have hnd := bool_guard_false _ _ _ c9
                  subst hnd
                  refine ⟨h.1, h.2.1, ?_⟩
                  have h22 := h.2.2
                  simpa using h22
              · rw [if_neg c9] at h
                by_cases c11 : (env.scrubRes th nd fixed != 0 || env.scrubIncomplete th nd fixed) = true
                · rw [if_pos c11, Option.some_inj] at h
                  subst h
                  refine scrub_finish_le _ _ _ _ _ ?_
                  by_cases hsc : env.scrubRes th nd fixed = 0
                  · rw [hsc]
                    exact scrub_teardown0_ok env htd
                  · rw [xchk_teardown_nonzero env _ hsc]
                    rintro (hb | hb)
                    · have hth := bool_guard_true _ _ th c7 hb
                      rw [hth] at hb
                      exact hsc1 nd fixed hb
                    · have hnd := bool_guard_true _ _ nd c9 hb
                      rw [hnd] at hb
                      exact hsc2 th fixed hb
                · rw [if_neg c11] at h
                  by_cases c12 : (env.couldRepair && !fixed) = true
                  · rw [if_pos c12] at h
                    by_cases c13 : (!env.willAttempt) = true
                    · rw [if_pos c13, Option.some_inj] at h
                      subst h
                      exact scrub_finish_le _ _ _ _ _ (scrub_teardown0_ok env htd)
                    · rw [if_neg c13] at h
                      by_cases c14 : (env.repairRes att == -EAGAIN) = true
                      · rw [if_pos c14] at h
                        by_cases c15 : (xchk_teardown env 0 != 0) = true
                        · rw [if_pos c15, Option.some_inj] at h
                          subst h
                          exact scrub_finish_le _ _ _ _ _ (scrub_teardown0_ok env htd)
                        · rw [if_neg c15] at h
                          exact ih _ _ _ _ _ _ _ h
                      · rw [if_neg c14, Option.some_inj] at h
                        subst h
                        refine scrub_finish_le _ _ _ _ _ ?_
                        by_cases hre : env.repairRes att = 0
                        · rw [hre]
                          exact scrub_teardown0_ok env htd
                        · rw [xchk_teardown_nonzero env _ hre]
                          exact hrep att
                  · rw [if_neg c12, Option.some_inj] at h
                    subst h
                    exact scrub_finish_le _ _ _ _ _ (scrub_teardown0_ok env htd)

/-- C9 amended: the dispatcher consumes the first -EDEADLOCK via the
once-only try-harder escalation and the first -ECHRNG via the once-only
need-drain escalation; provided its collaborators do not raise
-EDEADLOCK again once XCHK_TRY_HARDER is set, nor -ECHRNG once
XCHK_NEED_DRAIN is set, and produce those codes nowhere else, the error
returned to the end caller is never -EDEADLOCK or -ECHRNG, and each
escalation runs at most once per request.  (A repeated signal after its
escalation has been used is returned to the caller, as the
counterexample shows.) -/
theorem scrub_metadata_consumes_first_signals (env : ScrubEnv)
    (hsu1 : ∀ nd, env.setupRes true nd ≠ -EDEADLOCK)
    (hsu2 : ∀ th, env.setupRes th true ≠ -ECHRNG)
    (hsc1 : ∀ nd f, env.scrubRes true nd f ≠ -EDEADLOCK)
    (hsc2 : ∀ th f, env.scrubRes th true f ≠ -ECHRNG)
    (hrep : ∀ n, ¬ isRetrySignal (env.repairRes n))
    (hww : ¬ isRetrySignal env.wantWriteErr)
    (htd : ¬ isRetrySignal env.teardownErr)
    (hval : ¬ isRetrySignal env.validateErr) :
    ∀ fuel out, xfs_scrub_metadata env fuel = some out →
      ¬ isRetrySignal out.error ∧ out.thCount ≤ 1 ∧ out.ndCount ≤ 1 := by
  intro fuel out h
  unfold xfs_scrub_metadata at h
  split_ifs at h with h1 h2 h3 h4
  · rw [Option.some_inj] at h
    subst h
    exact scrub_finish_le _ _ _ 1 1 (by decide)
  · rw [Option.some_inj] at h
    subst h
    exact scrub_finish_le _ _ _ 1 1 (by decide)
  · rw [Option.some_inj] at h
    subst h
    exact scrub_finish_le _ _ _ 1 1 hval
  · rw [Option.some_inj] at h
    subst h
    exact scrub_finish_le _ _ _ 1 1 (by decide)
  · have hmain := scrub_retry_loop_consumes_signals env hsu1 hsu2 hsc1
      hsc2 hrep hww htd fuel false false 0 0 0 false out h
    refine ⟨hmain.1, ?_, ?_⟩
    · have h21 := hmain.2.1
      simpa using h21
    · have h22 := hmain.2.2
      simpa using h22

/-- Witness for the C9 amended theorem: a fully benign concrete
dispatcher run returns a non-signal error and used no escalation. -/
theorem scrub_metadata_consumes_first_signals_witness :
    ¬ isRetrySignal (ScrubOut.mk 0 0 0 false).error ∧
      (ScrubOut.mk 0 0 0 false).thCount ≤ 1 ∧
      (ScrubOut.mk 0 0 0 false).ndCount ≤ 1 := by
  exact scrub_metadata_consumes_first_signals
    ⟨false, false, 0, false, false, 0, fun _ _ => 0, fun _ _ _ => 0,
      fun _ _ _ => false, false, false, fun _ => 0, fun _ => false, 0⟩
    (by decide) (by decide) (by decide) (by decide)
    (fun _ => show ¬ isRetrySignal 0 by decide)
    (by decide) (by decide) (by decide) 1 ⟨0, 0, 0, false⟩ (by decide)

/-! ### C8 -/

/-- The byte at offset off reads as zero from every page the file holds
for it: any present page for off's page number is either not uptodate
(so the next xfile_get_page will zero-fill it) or already holds a zero
byte at off's in-page offset. -/
def ZeroAt (off : Nat) (xf : XfileMem) : Prop :=
  ∀ pg, xf.pages (off / PAGE_SIZE) = some pg → pg.uptodate = true →
    pg.data (off % PAGE_SIZE) = 0

theorem xfile_get_page_data_zero (garbage : Nat → Nat) (xf : XfileMem)
    (pgno off : Nat) (hz : ZeroAt off xf) (hpp : pgno = off / PAGE_SIZE) :
    (xfile_get_page garbage xf pgno).1.data (off % PAGE_SIZE) = 0 := by
  subst hpp
  unfold xfile_get_page
  dsimp only
  cases heq : xf.pages (off / PAGE_SIZE) with
  | none =>
    simp only [heq, Option.getD_none]
    rfl
  | some q =>
    simp only [heq, Option.getD_some]
    by_cases hq : q.uptodate = true
    · rw [if_pos hq]
      exact hz q heq hq
    · rw [if_neg hq]

theorem xfile_get_page_zeroAt (garbage : Nat → Nat) (xf : XfileMem)
    (pgno off : Nat) (hz : ZeroAt off xf) :
    ZeroAt off (xfile_get_page garbage xf pgno).2 := by
  intro pg hpg hupg
  unfold xfile_get_page at hpg
  dsimp only at hpg
  by_cases hpp : off / PAGE_SIZE = pgno
  · rw [if_pos (by simpa using hpp)] at hpg
    rw [Option.some_inj] at hpg
    subst hpg
    exact xfile_get_page_data_zero garbage xf pgno off hz hpp.symm
  · rw [if_neg (by simpa using hpp)] at hpg
    exact hz pg hpg hupg

theorem xfile_pwrite_go_zeroAt (garbage buf : Nat → Nat) (off : Nat) :
    ∀ fuel count pos bufoff xf, ZeroAt off xf →
      (off < pos ∨ pos + count ≤ off) →
      ZeroAt off (xfile_pwrite_go garbage buf fuel xf count pos bufoff) := by
  intro fuel
  induction fuel with
  | zero =>
    intro count pos bufoff xf hz hdisj
    cases count with
    | zero => exact hz
    | succ c => exact hz
  | succ fuel ih =>
    intro count pos bufoff xf hz hdisj
    cases count with
    | zero => exact hz
    | succ c =>
      simp only [xfile_pwrite_go]
      apply ih
      · intro pg hpg hupg
        dsimp only at hpg
        by_cases hpp : off / PAGE_SIZE = pos / PAGE_SIZE
        · rw [if_pos (by simpa using hpp)] at hpg
          rw [Option.some_inj] at hpg
          subst hpg
          dsimp only
          rw [if_neg ?hout]
          case hout =>
            have h1 := Nat.div_add_mod pos PAGE_SIZE
            have h2 := Nat.div_add_mod off PAGE_SIZE
            have h3 : off % PAGE_SIZE < PAGE_SIZE :=
              Nat.mod_lt _ (by decide)
            have h4 : pos % PAGE_SIZE < PAGE_SIZE :=
              Nat.mod_lt _ (by decide)
            have h5 : min (c + 1) (PAGE_SIZE - pos % PAGE_SIZE) ≤
                PAGE_SIZE - pos % PAGE_SIZE := Nat.min_le_right _ _
            have h6 : min (c + 1) (PAGE_SIZE - pos % PAGE_SIZE) ≤ c + 1 :=
              Nat.min_le_left _ _
            simp only [PAGE_SIZE] at h1 h2 h3 h4 h5 h6 hpp ⊢
            rintro ⟨ha, hb⟩
            rcases hdisj with hd | hd <;> omega
          · exact xfile_get_page_data_zero garbage xf (pos / PAGE_SIZE)
              off hz hpp.symm
        · rw [if_neg (by simpa using hpp)] at hpg
          exact xfile_get_page_zeroAt garbage xf (pos / PAGE_SIZE) off hz
            pg hpg hupg
      · have h6 : min (c + 1) (PAGE_SIZE - pos % PAGE_SIZE) ≤ c + 1 :=
          Nat.min_le_left _ _
        rcases hdisj with hd | hd
        · left
          omega
        · right
          omega

theorem xfile_pread_go_zeroAt (garbage : Nat → Nat) (off : Nat) :
    ∀ fuel count pos xf, ZeroAt off xf →
      ZeroAt off (xfile_pread_go garbage fuel xf count pos) := by
  intro fuel
  induction fuel with
  | zero =>
    intro count pos xf hz
    cases count with
    | zero => exact hz
    | succ c => exact hz
  | succ fuel ih =>
    intro count pos xf hz
    cases count with
    | zero => exact hz
    | succ c =>
      simp only [xfile_pread_go]
      exact ih _ _ _ (xfile_get_page_zeroAt garbage xf (pos / PAGE_SIZE)
        off hz)

theorem xfile_prealloc_go_zeroAt (garbage : Nat → Nat) (off : Nat) :
    ∀ fuel count pos xf, ZeroAt off xf →
      ZeroAt off (xfile_prealloc_go garbage fuel xf count pos) := by
  intro fuel
  induction fuel with
  | zero =>
    intro count pos xf hz
    cases count with
    | zero => exact hz
    | succ c => exact hz
  | succ fuel ih =>
    intro count pos xf hz
    cases count with
    | zero => exact hz
    | succ c =>
      simp only [xfile_prealloc_go]
      exact ih _ _ _ (xfile_get_page_zeroAt garbage xf (pos / PAGE_SIZE)
        off hz)

theorem xfile_apply_op_zeroAt (garbage : Nat → Nat) (off : Nat)
    (op : XfileOp) (xf : XfileMem) (hz : ZeroAt off xf)
    (hnw : xfile_op_writes op off = false) :
    ZeroAt off (xfile_apply_op garbage xf op) := by
  cases op with
  | pwrite buf count pos =>
    refine xfile_pwrite_go_zeroAt garbage buf off count count pos 0 xf
      hz ?_
    unfold xfile_op_writes at hnw
    simp only [Bool.and_eq_false_iff, decide_eq_false_iff_not,
      Nat.not_le, Nat.not_lt] at hnw
    rcases hnw with h | h
    · left
      exact h
    · right
      exact h
  | pread count pos =>
    exact xfile_pread_go_zeroAt garbage off count count pos xf hz
  | prealloc count pos =>
    exact xfile_prealloc_go_zeroAt garbage off count count pos xf hz

theorem xfile_run_zeroAt (garbage : Nat → Nat) (off : Nat) :
    ∀ (ops : List XfileOp) (xf : XfileMem), ZeroAt off xf →
      (∀ op ∈ ops, xfile_op_writes op off = false) →
      ZeroAt off (ops.foldl (xfile_apply_op garbage) xf) := by
  intro ops
  induction ops with
  | nil =>
    intro xf hz _
    exact hz
  | cons op rest ih =>
    intro xf hz hops
    simp only [List.foldl_cons]
    exact ih _
      (xfile_apply_op_zeroAt garbage off op xf hz
        (hops op (List.mem_cons_self _ _)))
      (fun o ho => hops o (List.mem_cons_of_mem _ ho))

/-- C8: a page handed out by xfile_get_page for a never-instantiated
page number has every byte zero-filled before the caller sees it, and
consequently, over every sequence of pwrite/pread/prealloc operations
starting from a fresh MemStore, reading a byte that no pwrite in the
sequence ever covered returns zero. -/
theorem xfile_never_written_reads_zero (garbage : Nat → Nat)
    (ops : List XfileOp) (off : Nat)
    (h : ∀ op ∈ ops, xfile_op_writes op off = false) :
    (xfile_read_byte garbage (xfile_run garbage ops) off).1 = 0 ∧
    (∀ xf pgno o, xf.pages pgno = none →
      (xfile_get_page garbage xf pgno).1.data o = 0) := by
  constructor
  · have hz : ZeroAt off (xfile_run garbage ops) :=
      xfile_run_zeroAt garbage off ops xfileEmpty
        (fun pg hpg _ => Option.noConfusion hpg) h
    unfold xfile_read_byte
    dsimp only
    exact xfile_get_page_data_zero garbage _ _ off hz rfl
  · intro xf pgno o heq
    unfold xfile_get_page
    dsimp only
    simp only [heq, Option.getD_none]
    rfl

/-- Witness for C8: after a concrete write of ten bytes at offset 0, a
prealloc and a read elsewhere, the never-written byte at offset 5000
reads as zero. -/
theorem xfile_never_written_reads_zero_witness :
    (xfile_read_byte (fun _ => 99)
        (xfile_run (fun _ => 99)
          [XfileOp.pwrite (fun _ => 7) 10 0, XfileOp.prealloc 4096 8192,
           XfileOp.pread 5 100]) 5000).1 = 0 := by
  refine (xfile_never_written_reads_zero (fun _ => 99)
    [XfileOp.pwrite (fun _ => 7) 10 0, XfileOp.prealloc 4096 8192,
     XfileOp.pread 5 100] 5000 ?_).1
  intro op hop
  cases hop with
  | head => decide
  | tail _ h2 =>
    cases h2 with
    | head => decide
    | tail _ h3 =>
      cases h3 with
      | head => decide
      | tail _ h4 => cases h4

end Spec2Proof
